import Mathlib

/-!
Verification development for the wind-rose aggregation engine
(`weather_station.py`, `report_builder.py`, `wind_plot.py`).

Conventions of the shallow embedding:
* a pandas DataFrame column of floats that may hold `NaN` is modelled as
  `Option ℚ` (`none` = `NaN`); machine floats are idealised as rationals;
* a DataFrame is a `List` of row structures; `df.loc[mask]` is `List.filter`;
* Python exceptions raised and caught across a call boundary are modelled by
  `Except String`;
* `numpy`/pandas `round` (round-half-to-even) is modelled by `roundHalfEven`.
-/

/-- One loaded observation row, after `WeatherStation.get_data` has parsed the
raw CSV: `dt_time` parsed to a point on the time axis (modelled as `Int`),
`Wind_dir` coerced to a string (`astype(str).str.strip()`), `wind_speed` and
`precipitation` via `pd.to_numeric(errors="coerce")` (so `none` = `NaN`). -/
structure Obs where
  dt_time : Int
  wind_dir : String
  wind_speed : Option ℚ
  precipitation : Option ℤ
deriving DecidableEq, Repr

/-- The two-column frame returned by `get_data_for_rose_of_wind`
(`data_wind["wd"]`, `data_wind["ws"]`). -/
structure WindRow where
  wd : String
  ws : Option ℚ
deriving DecidableEq, Repr

/-- `WeatherStation.get_data_in_date_interval`: keep rows with
`(data["dt_time"] > df) & (data["dt_time"] < dt)`. -/
def get_data_in_date_interval (data : List Obs) (df dt : Int) : List Obs :=
  data.filter (fun o => decide (df < o.dt_time) && decide (o.dt_time < dt))

/-- `WeatherStation._remove_calm`: map `"CALM"` to `NaN` in `Wind_dir`, then
keep rows where `Wind_dir` is not `NaN`; net effect is dropping rows whose
direction is the `"CALM"` sentinel. -/
def remove_calm (data : List Obs) : List Obs :=
  data.filter (fun o => o.wind_dir != "CALM")

/-- `WeatherStation._apply_snow_filter`: identity when `snow` is false;
otherwise map `precipitation` to `NaN` unless it equals `2`, then keep the
non-`NaN` rows (so rows with absent precipitation are dropped as well). -/
def apply_snow_filter (data : List Obs) (snow : Bool) : List Obs :=
  if !snow then data
  else data.filter (fun o => o.precipitation == some 2)

/-- `WeatherStation._apply_has_wind_over_3m_per_s_filter`: identity when
`metel` is false; otherwise map `wind_speed` to `NaN` when `x < 3`
(a `NaN` speed fails `x < 3` and so stays `NaN`), then keep non-`NaN` rows:
net effect keeps exactly the rows whose speed is present and `≥ 3`. -/
def apply_wind_filter (data : List Obs) (metel : Bool) : List Obs :=
  if !metel then data
  else data.filter (fun o =>
    match o.wind_speed with
    | some s => decide (3 ≤ s)
    | none => false)

/-- `WeatherStation.get_data_for_rose_of_wind`: date-interval slice, then
`_remove_calm`, `_apply_snow_filter`, `_apply_has_wind_over_3m_per_s_filter`,
then project to the `wd`/`ws` columns. -/
def get_data_for_rose_of_wind (data : List Obs) (date_from date_to : Int)
    (snow metel : Bool) : List WindRow :=
  let d0 := get_data_in_date_interval data date_from date_to
  let d1 := remove_calm d0
  let d2 := apply_snow_filter d1 snow
  let d3 := apply_wind_filter d2 metel
  d3.map (fun o => { wd := o.wind_dir, ws := o.wind_speed })

theorem get_data_in_date_interval_mem (data : List Obs) (df dt : Int) (o : Obs) :
    o ∈ get_data_in_date_interval data df dt ↔
      o ∈ data ∧ df < o.dt_time ∧ o.dt_time < dt := by
  simp [get_data_in_date_interval, List.mem_filter]

/-- C3: the date-interval slice returns exactly the observations whose
timestamp lies strictly between the bounds; an observation whose timestamp
equals either bound is excluded, and membership depends only on membership in
the input list (hence not on the ordering of input records). -/
theorem slice_strict_open_interval (data : List Obs) (df dt : Int) (o : Obs) :
    (o ∈ get_data_in_date_interval data df dt ↔
        o ∈ data ∧ df < o.dt_time ∧ o.dt_time < dt) ∧
      (o.dt_time = df ∨ o.dt_time = dt → o ∉ get_data_in_date_interval data df dt) := by
  refine ⟨get_data_in_date_interval_mem data df dt o, ?_⟩
  rintro (h | h) hmem <;>
    rcases (get_data_in_date_interval_mem data df dt o).mp hmem with ⟨-, h1, h2⟩ <;>
    omega

/-- Witness for C3 at concrete inputs: with bounds `0` and `10`, a record at
time `5` is kept and a record exactly at the bound `10` is excluded. -/
theorem slice_strict_open_interval_witness :
    (⟨5, "N", some 4, some 2⟩ : Obs) ∈
        get_data_in_date_interval
          [⟨5, "N", some 4, some 2⟩, ⟨10, "E", some 1, none⟩] 0 10 ∧
      (⟨10, "E", some 1, none⟩ : Obs) ∉
        get_data_in_date_interval
          [⟨5, "N", some 4, some 2⟩, ⟨10, "E", some 1, none⟩] 0 10 := by
  constructor
  · exact (slice_strict_open_interval
      [⟨5, "N", some 4, some 2⟩, ⟨10, "E", some 1, none⟩] 0 10
      ⟨5, "N", some 4, some 2⟩).1.mpr ⟨by simp, by decide, by decide⟩
  · exact (slice_strict_open_interval
      [⟨5, "N", some 4, some 2⟩, ⟨10, "E", some 1, none⟩] 0 10
      ⟨10, "E", some 1, none⟩).2 (Or.inr rfl)

theorem mem_remove_calm {l : List Obs} {o : Obs} (h : o ∈ remove_calm l) :
    o ∈ l ∧ o.wind_dir ≠ "CALM" := by
  rw [remove_calm, List.mem_filter] at h
  refine ⟨h.1, ?_⟩
  simpa using h.2

theorem mem_apply_snow_filter {l : List Obs} {o : Obs} {snow : Bool}
    (h : o ∈ apply_snow_filter l snow) : o ∈ l := by
  cases snow
  · simpa [apply_snow_filter] using h
  · rw [apply_snow_filter] at h
    simp only [Bool.not_true, if_false] at h
    exact (List.mem_filter.mp h).1

theorem mem_apply_wind_filter {l : List Obs} {o : Obs} {metel : Bool}
    (h : o ∈ apply_wind_filter l metel) :
    o ∈ l ∧ (metel = true → ∃ s, o.wind_speed = some s ∧ 3 ≤ s) := by
  cases metel
  · simpa [apply_wind_filter] using h
  · rw [apply_wind_filter] at h
    simp only [Bool.not_true, if_false] at h
    rcases List.mem_filter.mp h with ⟨hmem, hcond⟩
    refine ⟨hmem, fun _ => ?_⟩
    cases hs : o.wind_speed with
    | none => rw [hs] at hcond; simp at hcond
    | some s =>
        rw [hs] at hcond
        exact ⟨s, rfl, by simpa using hcond⟩

/-- C4 as stated is false: with both filters disabled, a record whose speed is
absent (`NaN`) passes every filter and reaches the set handed to the
aggregator with `ws = none` — it is not removed from the set. -/
theorem rose_input_nan_speed_cex :
    ¬ (∀ r ∈ get_data_for_rose_of_wind [⟨5, "N", none, none⟩] 0 10 false false,
        r.ws ≠ none) := by
  decide

/-- C4 amended: every row handed to the aggregator has a direction different
from the `"CALM"` sentinel, and when the wind-threshold filter is enabled it
also has a present speed `≥ 3`; but with the wind filter disabled, rows with
absent speed are retained in the set (they are only ignored later by the
grouping step). -/
theorem rose_input_invariant (data : List Obs) (date_from date_to : Int)
    (snow metel : Bool) (r : WindRow)
    (h : r ∈ get_data_for_rose_of_wind data date_from date_to snow metel) :
    r.wd ≠ "CALM" ∧ (metel = true → ∃ s, r.ws = some s ∧ 3 ≤ s) := by
  rw [get_data_for_rose_of_wind] at h
  rcases List.mem_map.mp h with ⟨o, ho, rfl⟩
  rcases mem_apply_wind_filter ho with ⟨ho2, hws⟩
  rcases mem_apply_snow_filter ho2 with ho1
  rcases mem_remove_calm ho1 with ⟨-, hdir⟩
  exact ⟨hdir, hws⟩

/-- Witness for C4's amended theorem at a concrete input with the wind filter
enabled. -/
theorem rose_input_invariant_witness :
    (⟨"N", some 4⟩ : WindRow).wd ≠ "CALM" ∧
      (true = true → ∃ s, (⟨"N", some 4⟩ : WindRow).ws = some s ∧ 3 ≤ s) :=
  rose_input_invariant [⟨5, "N", some 4, some 2⟩] 0 10 false true
    ⟨"N", some 4⟩ (by decide)

/-- One row of the `b_wind` frame built inside `obr_file` (`wd` from
`astype(str)`, `ws`/`sn` from `to_numeric(errors="coerce")`); `wd` is an
`Option` because `df_preparation` marks the `"CALM"` sentinel as `NaN`. -/
structure BwRow where
  wd : Option String
  ws : Option ℚ
  sn : Option ℤ
deriving DecidableEq, Repr

/-- `wind_plot.df_preparation`: mark `"CALM"` directions as `NaN`; when `snow`
is set, mark precipitation values other than `2` as `NaN`; when `metel` is
set, mark speeds `< 3` as `NaN` (a `NaN` speed fails `x < 3` and stays `NaN`);
finally `dropna()` removes every row with a `NaN` in any of the three columns,
whether or not the optional filters were enabled. -/
def df_preparation (b_w : List BwRow) (snow metel : Bool) : List BwRow :=
  let b1 := b_w.map (fun r =>
    { r with wd := if r.wd == some "CALM" then none else r.wd })
  let b2 := if snow then
      b1.map (fun r =>
        { r with sn := match r.sn with
                       | some x => if x ≠ 2 then none else some x
                       | none => none })
    else b1
  let b3 := if metel then
      b2.map (fun r =>
        { r with ws := match r.ws with
                       | some x => if x < 3 then none else some x
                       | none => none })
    else b2
  b3.filter (fun r => r.wd.isSome && r.ws.isSome && r.sn.isSome)

/-- C6 as stated is false for the legacy `wind_plot` pipeline: with both
filters disabled, `df_preparation` still drops a record whose speed and
precipitation are absent, because its final `dropna()` is unconditional. -/
theorem df_preparation_disabled_not_identity :
    df_preparation [⟨some "N", none, none⟩] false false ≠
      [(⟨some "N", none, none⟩ : BwRow)] := by
  decide

/-- C6 amended: in `weather_station` each disabled filter is literally the
identity (records with absent precipitation or speed are retained); in the
legacy `wind_plot.df_preparation`, the disabled filters mark nothing, but the
unconditional trailing `dropna()` still removes every record with an absent
direction, speed or precipitation (and the `"CALM"` rows). -/
theorem disabled_filters_identity :
    (∀ data : List Obs, apply_snow_filter data false = data) ∧
      (∀ data : List Obs, apply_wind_filter data false = data) ∧
      (∀ b_w : List BwRow, df_preparation b_w false false =
        b_w.filter (fun r =>
          r.wd.isSome && (r.wd != some "CALM") && r.ws.isSome && r.sn.isSome)) := by
  refine ⟨fun data => rfl, fun data => rfl, fun b_w => ?_⟩
  show (b_w.map (fun r =>
      { r with wd := if r.wd == some "CALM" then none else r.wd })).filter
        (fun r => r.wd.isSome && r.ws.isSome && r.sn.isSome) =
    b_w.filter (fun r =>
      r.wd.isSome && (r.wd != some "CALM") && r.ws.isSome && r.sn.isSome)
  induction b_w with
  | nil => rfl
  | cons r rs ih =>
      rw [List.map_cons, List.filter_cons, List.filter_cons]
      by_cases hc : r.wd = some "CALM"
      · simpa [hc] using ih
      · have hbeq : (r.wd == some "CALM") = false := by simpa using hc
        have heta : ({ wd := r.wd, ws := r.ws, sn := r.sn } : BwRow) = r := rfl
        rw [ih]
        simp [hbeq, hc, heta]

/-- Round to the nearest integer, ties to even — the rounding used by
`numpy`/pandas `round` and Python's `round`. -/
def roundHalfEven (x : ℚ) : ℤ :=
  if x - ⌊x⌋ < 1/2 then ⌊x⌋
  else if 1/2 < x - ⌊x⌋ then ⌊x⌋ + 1
  else if ⌊x⌋ % 2 = 0 then ⌊x⌋ else ⌊x⌋ + 1

/-- `DataFrame.round(1)`: round every value to one decimal place. -/
def round1 (x : ℚ) : ℚ := (roundHalfEven (10 * x) : ℚ) / 10

theorem roundHalfEven_eq_low {x : ℚ} {k : ℤ} (h1 : (k : ℚ) ≤ x)
    (h2 : x - k < 1/2) : roundHalfEven x = k := by
  have hk : ⌊x⌋ = k := Int.floor_eq_iff.mpr ⟨h1, by linarith⟩
  rw [roundHalfEven, hk, if_pos h2]

/-- The `applymap(lambda x: 0.0 if abs(x) < 0.05 else x)` step of `obr_file`:
values below `0.05` in absolute value are replaced by `0.0`. -/
def microZero (x : ℚ) : ℚ := if |x| < 1/20 then 0 else x

/-- The `f"{value:.3f}"` rendering used by `_format_value`'s else branch. -/
def q3String (v : ℚ) : String :=
  let n := roundHalfEven (1000 * v)
  let a := n.natAbs
  let s := toString (a % 1000)
  let pad := String.mk (List.replicate (3 - s.length) '0')
  (if n < 0 then "-" else "") ++ toString (a / 1000) ++ "." ++ pad ++ s

/-- `report_builder._format_value`: render `"0.0"` when the absolute value is
below `0.05` (the `pd.isna` branch is unreachable here because the modelled
pivot holds no `NaN`), otherwise render with three decimals. -/
def format_value (v : ℚ) : String :=
  if |v| < 1/20 then "0.0" else q3String v

/-- The `(ws, wd)` pairs that `groupby(["ws", "wd"])` actually groups:
rows whose speed is `NaN` are dropped by pandas' groupby. -/
def validPairs (data : List WindRow) : List (ℚ × String) :=
  data.filterMap (fun r => r.ws.map (fun s => (s, r.wd)))

/-- The absolute-count pivot of `_create_absolute_pivot`: row labels are the
distinct observed speeds, column labels the distinct observed directions, and
each cell counts the `(speed, direction)` occurrences (`fill_value=0` for
absent pairs).  pandas sorts the labels; the label lists here keep first-
occurrence order, which is the same set of labels, and every property proved
below sums over them (order-independent). -/
structure AbsPivot where
  speeds : List ℚ
  dirs : List String
  count : ℚ → String → ℕ

/-- `report_builder._create_absolute_pivot`: raises on an empty frame,
otherwise groups by `(ws, wd)` (dropping `NaN` keys) and counts. -/
def create_absolute_pivot (data : List WindRow) : Except String AbsPivot :=
  if data.isEmpty then Except.error "Нет данных для создания таблицы"
  else
    let pairs := validPairs data
    Except.ok
      { speeds := (pairs.map Prod.fst).dedup
        dirs := (pairs.map Prod.snd).dedup
        count := fun s d => (pairs.filter (fun p => p.1 == s && p.2 == d)).length }

/-- The percentage pivot as assembled by `_create_percentage_pivot`:
`cell` holds the non-marginal cells, `totalRow` the appended
`"Всего,%"` row, `totalCol` the appended `"Всего,%"` column and `grand` the
cell at their intersection. -/
structure PctPivot where
  speeds : List ℚ
  dirs : List String
  cell : ℚ → String → ℚ
  totalRow : String → ℚ
  totalCol : ℚ → ℚ
  grand : ℚ

/-- `report_builder._create_percentage_pivot` (with `total_count` passed
explicitly, as `make_report` does): raise when `total_count <= 0`; otherwise
`pct_table = abs_pivot / total_count * 100`; `direction_totals_pct` is taken
column-wise before the `"Всего,%"` row exists; `speed_totals_pct` is taken
row-wise over `iloc[:-1]` (the data rows) before the `"Всего,%"` column
exists; the grand cell is `iloc[:-1, :-1].sum().sum()`, the sum over the
non-marginal cells. -/
def create_percentage_pivot (ap : AbsPivot) (total_count : ℚ) :
    Except String PctPivot :=
  if total_count ≤ 0 then
    Except.error "Суммарное количество наблюдений равно нулю или отрицательно"
  else
    let cell : ℚ → String → ℚ := fun s d => (ap.count s d : ℚ) / total_count * 100
    let direction_totals_pct : String → ℚ :=
      fun d => (ap.speeds.map (fun s => cell s d)).sum
    let speed_totals_pct : ℚ → ℚ :=
      fun s => (ap.dirs.map (fun d => cell s d)).sum
    let total_sum : ℚ :=
      (ap.speeds.map (fun s => (ap.dirs.map (fun d => cell s d)).sum)).sum
    Except.ok
      { speeds := ap.speeds, dirs := ap.dirs, cell := cell
        totalRow := direction_totals_pct, totalCol := speed_totals_pct
        grand := total_sum }

/-- Sum of all non-marginal cells of a percentage pivot. -/
def nonMarginalSum (p : PctPivot) : ℚ :=
  (p.speeds.map (fun s => (p.dirs.map (fun d => p.cell s d)).sum)).sum

/-- The percentage pivot as assembled by the legacy `obr_file` workflow in
`wind_plot.py`. -/
structure WpPivot where
  speeds : List ℚ
  dirs : List String
  cell : ℚ → String → ℚ
  totalRow : String → ℚ
  totalCol : ℚ → ℚ
  grand : ℚ

/-- The pivot/percentage block of `wind_plot.obr_file` (lines 313-356), on the
filtered `b_wind` rows (speed, direction): counts are grouped and
`pivot_abs.round(1)` applied (a no-op on integer counts); the percentage cells
are rounded to one decimal and micro-values below `0.05` zeroed
(`pivot_pct.round(1)` then `applymap`); the `"Всего,%"` row is recomputed from
the unrounded counts and rounded once; the `"Всего,%"` column sums the
already-rounded cells (`pivot_pct.iloc[:-1, :].sum(axis=1)`) and rounds the
result; the grand cell sums the rounded cells (`iloc[:-1, :-1].sum().sum()`). -/
def obr_percentage_pivot (b_wind : List (ℚ × String)) : WpPivot :=
  let total : ℚ := (b_wind.length : ℚ)
  let speeds := (b_wind.map Prod.fst).dedup
  let dirs := (b_wind.map Prod.snd).dedup
  let count : ℚ → String → ℕ :=
    fun s d => (b_wind.filter (fun p => p.1 == s && p.2 == d)).length
  let pivot_abs : ℚ → String → ℚ := fun s d => round1 (count s d)
  let direction_totals : String → ℚ :=
    fun d => (speeds.map (fun s => pivot_abs s d)).sum
  let cellR : ℚ → String → ℚ :=
    fun s d => microZero (round1 (pivot_abs s d / total * 100))
  let direction_pct : String → ℚ :=
    fun d => round1 (direction_totals d / total * 100)
  let speed_pct_totals : ℚ → ℚ := fun s => (dirs.map (fun d => cellR s d)).sum
  let total_sum : ℚ :=
    (speeds.map (fun s => (dirs.map (fun d => cellR s d)).sum)).sum
  { speeds := speeds, dirs := dirs, cell := cellR
    totalRow := direction_pct, totalCol := fun s => round1 (speed_pct_totals s)
    grand := total_sum }

/-- The unrounded percentage of one `(speed, direction)` pair of the `b_wind`
frame: `count / total_count * 100` before any rounding. -/
def wpRawPct (b_wind : List (ℚ × String)) (s : ℚ) (d : String) : ℚ :=
  ((b_wind.filter (fun p => p.1 == s && p.2 == d)).length : ℚ) /
    (b_wind.length : ℚ) * 100

/-- C7: the percentage pivot computation fails exactly when
`total_count <= 0`; for every positive total it succeeds and each cell equals
`100 * count / totalCount` (the margins and grand cell being the
corresponding sums of those cells). -/
theorem percentage_pivot_spec (ap : AbsPivot) (total_count : ℚ) :
    ((∃ e, create_percentage_pivot ap total_count = Except.error e) ↔
        total_count ≤ 0) ∧
      (0 < total_count →
        create_percentage_pivot ap total_count = Except.ok
          { speeds := ap.speeds, dirs := ap.dirs
            cell := fun s d => 100 * (ap.count s d : ℚ) / total_count
            totalRow := fun d => (ap.speeds.map
              (fun s => 100 * (ap.count s d : ℚ) / total_count)).sum
            totalCol := fun s => (ap.dirs.map
              (fun d => 100 * (ap.count s d : ℚ) / total_count)).sum
            grand := (ap.speeds.map (fun s => (ap.dirs.map
              (fun d => 100 * (ap.count s d : ℚ) / total_count)).sum)).sum }) := by
  have key : ∀ (s : ℚ) (d : String),
      (ap.count s d : ℚ) / total_count * 100 =
        100 * (ap.count s d : ℚ) / total_count := fun s d => by ring
  constructor
  · constructor
    · rintro ⟨e, he⟩
      by_contra hnle
      rw [create_percentage_pivot, if_neg hnle] at he
      exact Except.noConfusion he
    · intro hle
      exact ⟨_, by rw [create_percentage_pivot, if_pos hle]⟩
  · intro hpos
    rw [create_percentage_pivot, if_neg (not_le.mpr hpos)]
    show Except.ok
      ({ speeds := ap.speeds, dirs := ap.dirs,
         cell := fun s d => (ap.count s d : ℚ) / total_count * 100,
         totalRow := fun d => (ap.speeds.map
           (fun s => (ap.count s d : ℚ) / total_count * 100)).sum,
         totalCol := fun s => (ap.dirs.map
           (fun d => (ap.count s d : ℚ) / total_count * 100)).sum,
         grand := (ap.speeds.map (fun s => (ap.dirs.map
           (fun d => (ap.count s d : ℚ) / total_count * 100)).sum)).sum } : PctPivot) = _
    simp only [key]

/-- A one-observation absolute pivot used to instantiate witnesses. -/
def sampleAbs : AbsPivot := { speeds := [1], dirs := ["N"], count := fun _ _ => 1 }

/-- The percentage pivot that `_create_percentage_pivot` produces from
`sampleAbs` with `total_count = 2`. -/
def samplePct : PctPivot :=
  { speeds := sampleAbs.speeds, dirs := sampleAbs.dirs
    cell := fun s d => (sampleAbs.count s d : ℚ) / 2 * 100
    totalRow := fun d => (sampleAbs.speeds.map
      (fun s => (sampleAbs.count s d : ℚ) / 2 * 100)).sum
    totalCol := fun s => (sampleAbs.dirs.map
      (fun d => (sampleAbs.count s d : ℚ) / 2 * 100)).sum
    grand := (sampleAbs.speeds.map (fun s => (sampleAbs.dirs.map
      (fun d => (sampleAbs.count s d : ℚ) / 2 * 100)).sum)).sum }

/-- The pivot that C7's characterization predicts for `sampleAbs` with
`total_count = 2`, written with the claim's `100 * count / totalCount`
cell formula. -/
def samplePct100 : PctPivot :=
  { speeds := sampleAbs.speeds, dirs := sampleAbs.dirs,
    cell := fun s d => 100 * (sampleAbs.count s d : ℚ) / 2,
    totalRow := fun d => (sampleAbs.speeds.map
      (fun s => 100 * (sampleAbs.count s d : ℚ) / 2)).sum,
    totalCol := fun s => (sampleAbs.dirs.map
      (fun d => 100 * (sampleAbs.count s d : ℚ) / 2)).sum,
    grand := (sampleAbs.speeds.map (fun s => (sampleAbs.dirs.map
      (fun d => 100 * (sampleAbs.count s d : ℚ) / 2)).sum)).sum }

/-- Witness for C7 at `total_count = 2 > 0`. -/
theorem percentage_pivot_spec_witness :
    create_percentage_pivot sampleAbs 2 = Except.ok samplePct100 :=
  (percentage_pivot_spec sampleAbs 2).2 (by norm_num)

/-- C1: for every percentage pivot the computation produces, the grand-total
cell equals the sum of all non-marginal cells exactly — it is recomputed as
that sum — and in particular lies within the 0.2 tolerance of it. -/
theorem grand_total_is_cell_sum (ap : AbsPivot) (total_count : ℚ) (p : PctPivot)
    (h : create_percentage_pivot ap total_count = Except.ok p) :
    p.grand = nonMarginalSum p ∧ |p.grand - nonMarginalSum p| ≤ 1/5 := by
  rw [create_percentage_pivot] at h
  by_cases hle : total_count ≤ 0
  · rw [if_pos hle] at h
    exact Except.noConfusion h
  · rw [if_neg hle] at h
    injection h with h'
    subst h'
    refine ⟨rfl, ?_⟩
    simp [nonMarginalSum]

/-- Witness for C1 at the sample pivot. -/
theorem grand_total_is_cell_sum_witness :
    samplePct.grand = nonMarginalSum samplePct ∧
      |samplePct.grand - nonMarginalSum samplePct| ≤ 1/5 :=
  grand_total_is_cell_sum sampleAbs 2 samplePct rfl

/-- The `b_wind` frame refuting C2's "margins from unrounded values" for the
legacy pipeline: three observations in three directions at one speed. -/
def wpCex : List (ℚ × String) := [(1, "N"), (1, "NE"), (1, "E")]

/-- C2 as stated is false for the legacy `obr_file` pivot: with three equal
counts, each cell percentage is `100/3`, rounded to `33.3`; the `"Всего,%"`
column entry sums the already-rounded cells and yields `99.9`, while the
row-wise sum of the unrounded cell percentages is `100`. -/
theorem wp_total_col_from_rounded_cells_cex :
    (obr_percentage_pivot wpCex).totalCol 1 = 999/10 ∧
      ((obr_percentage_pivot wpCex).dirs.map (fun d => wpRawPct wpCex 1 d)).sum
        = 100 ∧
      (obr_percentage_pivot wpCex).totalCol 1 ≠
        ((obr_percentage_pivot wpCex).dirs.map
          (fun d => wpRawPct wpCex 1 d)).sum := by
  have hdirs : ((wpCex.map Prod.snd).dedup : List String) = ["N", "NE", "E"] := by
    simp [wpCex, List.dedup_cons_of_not_mem]
  have e1 : (List.filter (fun p => p.1 == 1 && p.2 == "N") wpCex).length = 1 := rfl
  have e2 : (List.filter (fun p => p.1 == 1 && p.2 == "NE") wpCex).length = 1 := rfl
  have e3 : (List.filter (fun p => p.1 == 1 && p.2 == "E") wpCex).length = 1 := rfl
  have elen : wpCex.length = 3 := rfl
  have h1 : (obr_percentage_pivot wpCex).totalCol 1 = 999/10 := by
    show round1 (((wpCex.map Prod.snd).dedup.map (fun d =>
      microZero (round1 (round1 (((wpCex.filter
        (fun p => p.1 == 1 && p.2 == d)).length : ℚ)) /
          (wpCex.length : ℚ) * 100)))).sum) = 999/10
    rw [hdirs]
    simp only [List.map_cons, List.map_nil, List.sum_cons, List.sum_nil, add_zero]
    rw [e1, e2, e3, elen]
    have hc1 : round1 ((1 : ℕ) : ℚ) = 1 := by
      rw [round1, roundHalfEven_eq_low (k := 10) (by norm_num) (by norm_num)]
      norm_num
    simp only [hc1]
    have hcell : microZero (round1 ((1 : ℚ) / ((3 : ℕ) : ℚ) * 100)) = 333/10 := by
      rw [round1, roundHalfEven_eq_low (k := 333) (by norm_num) (by norm_num)]
      rw [microZero, if_neg (by rw [abs_of_nonneg (by norm_num)]; norm_num)]
      norm_num
    simp only [hcell]
    rw [show (333/10 + (333/10 + 333/10 : ℚ)) = 999/10 by norm_num]
    rw [round1, roundHalfEven_eq_low (k := 999) (by norm_num) (by norm_num)]
    norm_num
  have h2 : ((obr_percentage_pivot wpCex).dirs.map
      (fun d => wpRawPct wpCex 1 d)).sum = 100 := by
    show (((wpCex.map Prod.snd).dedup : List String).map
      (fun d => wpRawPct wpCex 1 d)).sum = 100
    rw [hdirs]
    simp only [List.map_cons, List.map_nil, List.sum_cons, List.sum_nil,
      add_zero, wpRawPct]
    rw [e1, e2, e3, elen]
    norm_num
  refine ⟨h1, h2, ?_⟩
  rw [h1, h2]
  norm_num

/-- C2 amended: in `report_builder._create_percentage_pivot` both margins are
computed from the unrounded cell percentages (no rounding precedes them); in
the legacy `obr_file` pivot the `"Всего,%"` column is instead the rounded
row-wise sum of the already rounded-and-zeroed cells. -/
theorem margins_before_rounding (ap : AbsPivot) (total_count : ℚ) (p : PctPivot)
    (h : create_percentage_pivot ap total_count = Except.ok p) :
    (∀ d, p.totalRow d =
        (ap.speeds.map (fun s => (ap.count s d : ℚ) / total_count * 100)).sum) ∧
      (∀ s, p.totalCol s =
        (ap.dirs.map (fun d => (ap.count s d : ℚ) / total_count * 100)).sum) ∧
      (∀ (b_wind : List (ℚ × String)) (s : ℚ),
        (obr_percentage_pivot b_wind).totalCol s =
          round1 (((obr_percentage_pivot b_wind).dirs.map
            (fun d => (obr_percentage_pivot b_wind).cell s d)).sum)) := by
  rw [create_percentage_pivot] at h
  by_cases hle : total_count ≤ 0
  · rw [if_pos hle] at h
    exact Except.noConfusion h
  · rw [if_neg hle] at h
    injection h with h'
    subst h'
    exact ⟨fun d => rfl, fun s => rfl, fun b_wind s => rfl⟩

/-- Witness for C2's amended theorem at the sample pivot. -/
theorem margins_before_rounding_witness :
    samplePct.totalRow "N" =
      (sampleAbs.speeds.map (fun s => (sampleAbs.count s "N" : ℚ) / 2 * 100)).sum :=
  (margins_before_rounding sampleAbs 2 samplePct rfl).1 "N"

/-- C9: every percentage cell below `0.05` in absolute value renders as the
literal `"0.0"` regardless of sign; the rounding-to-zero touches only the
rendered string, not the values that enter the margin sums — in
`_create_percentage_pivot` the margins are sums of the raw cell values, and in
the legacy pipeline the `applymap` zeroing of already-`round(1)`-ed cells is
the identity, so the margin sums there receive values unchanged by it. -/
theorem micro_format_rule :
    (∀ v : ℚ, |v| < 1/20 → format_value v = "0.0") ∧
      (∀ x : ℚ, microZero (round1 x) = round1 x) ∧
      (∀ (ap : AbsPivot) (t : ℚ) (p : PctPivot),
        create_percentage_pivot ap t = Except.ok p →
          (∀ d, p.totalRow d = (p.speeds.map (fun s => p.cell s d)).sum) ∧
          (∀ s, p.totalCol s = (p.dirs.map (fun d => p.cell s d)).sum)) := by
  refine ⟨fun v h => by rw [format_value, if_pos h], fun x => ?_, ?_⟩
  · rw [round1, microZero]
    split
    · rename_i h
      have h1 : |((roundHalfEven (10 * x) : ℚ))| < 1/2 := by
        rw [abs_div] at h
        have h10 : |(10 : ℚ)| = 10 := by norm_num
        rw [h10] at h
        linarith
      have h2 : roundHalfEven (10 * x) = 0 := by
        by_contra hne
        have hge : (1 : ℤ) ≤ |roundHalfEven (10 * x)| := Int.one_le_abs hne
        have hge' : (1 : ℚ) ≤ |((roundHalfEven (10 * x) : ℚ))| := by
          rw [← Int.cast_abs]
          exact_mod_cast hge
        linarith
      rw [h2]
      norm_num
    · rfl
  · intro ap t p h
    rw [create_percentage_pivot] at h
    by_cases hle : t ≤ 0
    · rw [if_pos hle] at h
      exact Except.noConfusion h
    · rw [if_neg hle] at h
      injection h with h'
      subst h'
      exact ⟨fun d => rfl, fun s => rfl⟩

/-- Witness for C9 at a negative near-zero value. -/
theorem micro_format_rule_witness : format_value (-1/100) = "0.0" :=
  micro_format_rule.1 (-1/100) (by rw [abs_of_nonpos (by norm_num)]; norm_num)

/-- `report_builder.DIRECTIONS_ORDER` (same list in `wind_plot`). -/
def DIRECTIONS_ORDER : List String :=
  ["N", "NNE", "NE", "ENE", "E", "ESE", "SE", "SSE",
   "S", "SSW", "SW", "WSW", "W", "WNW", "NW", "NNW"]

/-- The `w_dir` direction-to-degrees dictionary of
`_draw_and_save_wind_rose_plot` / `wind_rose`, as an association list. -/
def w_dir : List (String × ℚ) :=
  [("N", 0), ("NNE", 22.5), ("NE", 45), ("ENE", 67.5), ("E", 90),
   ("ESE", 112.5), ("SE", 135), ("SSE", 157.5), ("S", 180), ("SSW", 202.5),
   ("SW", 225), ("WSW", 247.5), ("W", 270), ("WNW", 292.5), ("NW", 315),
   ("NNW", 337.5)]

/-- Dictionary lookup `w_dir[x] if x in w_dir else np.nan`. -/
def lookupDir (x : String) : Option ℚ :=
  (w_dir.find? (fun p => p.1 == x)).map Prod.snd

/-- The direction-conversion step of `_draw_and_save_wind_rose_plot`:
`data["wd"].apply(lambda x: w_dir[x] if x in w_dir else np.nan)` followed by
`data.dropna()` — rows whose direction is not a `w_dir` key (or whose speed is
`NaN`) are dropped, keeping `(degrees, speed)` pairs. -/
def wind_rose_degrees (data : List WindRow) : List (ℚ × ℚ) :=
  data.filterMap (fun r =>
    match lookupDir r.wd, r.ws with
    | some deg, some s => some (deg, s)
    | _, _ => none)

/-- `_draw_and_save_wind_rose_plot` up to its emptiness check: the function
raises only when no rows survive the direction conversion at all. -/
def draw_transform (data : List WindRow) : Except String (List (ℚ × ℚ)) :=
  let mapped := wind_rose_degrees data
  if mapped.isEmpty then
    Except.error "Нет данных для построения розы ветров после преобразования направлений"
  else Except.ok mapped

/-- C5 as stated is false: a `"CALM"` record reaching the plotting code is
silently mapped to `NaN` and dropped — the transform succeeds on the
remaining rows instead of failing with an unknown-direction error. -/
theorem calm_silently_dropped_cex :
    draw_transform [⟨"CALM", some 5⟩, ⟨"N", some 2⟩] = Except.ok [(0, 2)] := rfl

/-- C5 amended: the mapping is total over exactly the 16 compass codes with
`N = 0°` stepping `22.5°` clockwise, and yields no entry for any other code
(including `"CALM"`); but the plotting code never raises an
unknown-direction error — a record with an unknown code is silently coerced
to `NaN` and dropped, so every surviving pair comes from a record whose
direction is one of the 16 keys. -/
theorem direction_codec_spec :
    (∀ i : Fin DIRECTIONS_ORDER.length,
      lookupDir (DIRECTIONS_ORDER.get i) = some ((45/2 : ℚ) * i.val)) ∧
      (∀ x : String, x ∉ DIRECTIONS_ORDER → lookupDir x = none) ∧
      (∀ (data : List WindRow) (p : ℚ × ℚ), p ∈ wind_rose_degrees data →
        ∃ r ∈ data, lookupDir r.wd = some p.1 ∧ r.ws = some p.2) := by
  refine ⟨?_, ?_, ?_⟩
  · intro i
    fin_cases i <;> norm_num [lookupDir, w_dir, DIRECTIONS_ORDER] <;> decide
  · intro x hx
    refine Option.map_eq_none'.mpr (List.find?_eq_none.mpr ?_)
    intro p hp hbeq
    apply hx
    have h1 : p.1 = x := by simpa using hbeq
    have h2 : p.1 ∈ w_dir.map Prod.fst := List.mem_map_of_mem Prod.fst hp
    rw [show w_dir.map Prod.fst = DIRECTIONS_ORDER from rfl] at h2
    rwa [h1] at h2
  · intro data p hp
    rcases List.mem_filterMap.mp hp with ⟨r, hr, hf⟩
    refine ⟨r, hr, ?_⟩
    cases hld : lookupDir r.wd with
    | none =>
        rw [hld] at hf
        cases hws : r.ws <;> rw [hws] at hf <;> exact Option.noConfusion hf
    | some deg =>
        cases hws : r.ws with
        | none => rw [hld, hws] at hf; exact Option.noConfusion hf
        | some s =>
            rw [hld, hws] at hf
            injection hf with hf'
            rw [← hf']
            exact ⟨rfl, rfl⟩

/-- Witness for C5's amended theorem: the `"CALM"` sentinel is not a key of
the mapping. -/
theorem direction_codec_spec_witness : lookupDir "CALM" = none :=
  direction_codec_spec.2.1 "CALM" (by decide)

/-- The `time_1` synoptic-hour suffixes probed by `obr_file`. -/
def time_1 : List String :=
  [" 00:00", " 03:00", " 06:00", " 09:00",
   " 12:00", " 15:00", " 18:00", " 21:00"]

/-- The probing loop of `obr_file`
(`for i in range(8): ... if len(ind) != 0: date = date_1; break`): walk the
given hour suffixes in order and return the date extended by the first
suffix for which a row exists; if none matches, the original date is kept. -/
def probeFirst (csv : List String) (d : String) : List String → String
  | [] => d
  | t :: ts => if csv.contains (d ++ t) then d ++ t else probeFirst csv d ts

/-- Start-date resolution: probe the eight hours in ascending order. -/
def resolveStart (csv : List String) (d : String) : String :=
  probeFirst csv d time_1

/-- End-date resolution (`for i in range(7, -1, -1)`): probe the eight hours
in descending order, `21:00` first. -/
def resolveEnd (csv : List String) (d : String) : String :=
  probeFirst csv d time_1.reverse

/-- The index reconciliation of `obr_file`: look up the first row index of
each resolved timestamp (`index_n[0]`, `index_k[0]`), fail when either is
absent, and slice from the smaller to the larger index
(`start_idx = min(...)`, `end_idx = max(...)`). -/
def resolveWindow (csv : List String) (dn dk : String) : Option (Nat × Nat) :=
  let date_n := resolveStart csv dn
  let date_k := resolveEnd csv dk
  match csv.findIdx? (fun x => x == date_n), csv.findIdx? (fun x => x == date_k) with
  | some i, some j => some (min i j, max i j)
  | _, _ => none

theorem probeFirst_spec (csv : List String) (d : String) (ts : List String) :
    ((∀ t ∈ ts, csv.contains (d ++ t) = false) ∧ probeFirst csv d ts = d) ∨
      (∃ l t r, ts = l ++ t :: r ∧ csv.contains (d ++ t) = true ∧
        (∀ u ∈ l, csv.contains (d ++ u) = false) ∧
        probeFirst csv d ts = d ++ t) := by
  induction ts with
  | nil => exact Or.inl ⟨by simp, rfl⟩
  | cons t ts ih =>
      cases hc : csv.contains (d ++ t) with
      | true =>
          refine Or.inr ⟨[], t, ts, rfl, hc, by simp, ?_⟩
          rw [probeFirst, if_pos hc]
      | false =>
          rcases ih with ⟨hall, heq⟩ | ⟨l, u, r, hts, hcu, hl, heq⟩
          · refine Or.inl ⟨?_, ?_⟩
            · intro x hx
              rcases List.mem_cons.mp hx with rfl | hx'
              · exact hc
              · exact hall x hx'
            · rw [probeFirst, if_neg (by rw [hc]; simp)]
              exact heq
          · refine Or.inr ⟨t :: l, u, r, by rw [hts, List.cons_append], hcu, ?_, ?_⟩
            · intro x hx
              rcases List.mem_cons.mp hx with rfl | hx'
              · exact hc
              · exact hl x hx'
            · rw [probeFirst, if_neg (by rw [hc]; simp)]
              exact heq

/-- C8: the start probe takes the earliest synoptic hour of the start date
with an existing row (or keeps the bare date); the end probe takes the
latest synoptic hour of the end date with an existing row (every later hour
having no row); and the slice bounds are the `min` and `max` of the two first
matching row indices, whichever endpoint produced which; if either resolved
timestamp has no row, the resolution fails. -/
theorem window_resolver_spec (csv : List String) (dn dk : String) :
    (((∀ t ∈ time_1, csv.contains (dn ++ t) = false) ∧ resolveStart csv dn = dn) ∨
      (∃ l t r, time_1 = l ++ t :: r ∧ csv.contains (dn ++ t) = true ∧
        (∀ u ∈ l, csv.contains (dn ++ u) = false) ∧
        resolveStart csv dn = dn ++ t)) ∧
      (((∀ t ∈ time_1, csv.contains (dk ++ t) = false) ∧ resolveEnd csv dk = dk) ∨
        (∃ l t r, time_1 = l ++ t :: r ∧ csv.contains (dk ++ t) = true ∧
          (∀ u ∈ r, csv.contains (dk ++ u) = false) ∧
          resolveEnd csv dk = dk ++ t)) ∧
      (∀ i j, csv.findIdx? (fun x => x == resolveStart csv dn) = some i →
        csv.findIdx? (fun x => x == resolveEnd csv dk) = some j →
        resolveWindow csv dn dk = some (min i j, max i j)) ∧
      ((csv.findIdx? (fun x => x == resolveStart csv dn) = none ∨
        csv.findIdx? (fun x => x == resolveEnd csv dk) = none) →
        resolveWindow csv dn dk = none) := by
  refine ⟨?_, ?_, ?_, ?_⟩
  · rcases probeFirst_spec csv dn time_1 with ⟨hall, heq⟩ | ⟨l, t, r, hts, hct, hl, heq⟩
    · exact Or.inl ⟨hall, heq⟩
    · exact Or.inr ⟨l, t, r, hts, hct, hl, heq⟩
  · rcases probeFirst_spec csv dk time_1.reverse with
      ⟨hall, heq⟩ | ⟨l, t, r, hts, hct, hl, heq⟩
    · refine Or.inl ⟨?_, heq⟩
      intro x hx
      exact hall x (List.mem_reverse.mpr hx)
    · refine Or.inr ⟨r.reverse, t, l.reverse, ?_, hct, ?_, heq⟩
      · have h1 := congrArg List.reverse hts
        rw [List.reverse_reverse, List.reverse_append, List.reverse_cons,
          List.append_assoc] at h1
        simpa using h1
      · intro x hx
        exact hl x (List.mem_reverse.mp hx)
  · intro i j hi hj
    simp only [resolveWindow]
    rw [hi, hj]
  · intro h
    simp only [resolveWindow]
    rcases h with h | h
    · rw [h]
    · rw [h]
      cases csv.findIdx? (fun x => x == resolveStart csv dn) <;> rfl

/-- Witness for C8 on a two-row file: the start date resolves to its
`03:00` row (index 0), the end date to its `21:00` row (index 1), and the
slice runs from index 0 to index 1. -/
theorem window_resolver_spec_witness :
    resolveWindow ["01.01.2020 03:00", "02.01.2020 21:00"]
      "01.01.2020" "02.01.2020" = some (min 0 1, max 0 1) :=
  (window_resolver_spec ["01.01.2020 03:00", "02.01.2020 21:00"]
    "01.01.2020" "02.01.2020").2.2.1 0 1 rfl rfl

/-- `abs_pivot.sum().sum()` — the total observation count of an absolute
pivot. -/
def pivot_total (ap : AbsPivot) : ℕ :=
  (ap.speeds.map (fun s => (ap.dirs.map (fun d => ap.count s d)).sum)).sum

/-- The effectful collaborators of `make_report`, abstracted as oracles: the
outcome of `station.get_data_for_rose_of_wind` (which may raise), of the
path-preparation block, of `_draw_and_save_wind_rose_plot`, the
`os.path.exists` check on the image, the outcome of `_render_to_word`, and
the `os.path.exists` check on the saved document.  Every exception a
collaborator may raise is represented as an `Except.error` value, matching
the `try`/`except` blocks that convert it to a `(False, message)` return. -/
structure ReportEnv where
  getData : Except String (List WindRow)
  pathsOk : Except String Unit
  plotOk : Except String Unit
  imageExists : Bool
  renderOk : Except String Unit
  docExists : Bool

/-- `report_builder.make_report`: date validation, data retrieval, emptiness
check, absolute pivot, zero-total check, percentage pivot, path preparation,
plot, image-existence check, document rendering, document-existence check;
each failure is converted to `(false, message)` and only full success returns
`(true, none)`. -/
def make_report (env : ReportEnv) (date_from date_to : Int) :
    Bool × Option String :=
  if date_from ≥ date_to then
    (false, some "Ошибка: дата 'с' должна быть раньше даты 'по'")
  else
    match env.getData with
    | Except.error e => (false, some ("Ошибка при загрузке данных из файла: " ++ e))
    | Except.ok data =>
      if data.isEmpty then (false, some "Нет данных за период")
      else
        match create_absolute_pivot data with
        | Except.error e =>
            (false, some ("Ошибка при создании таблицы распределения: " ++ e))
        | Except.ok ap =>
          let total := pivot_total ap
          if total = 0 then
            (false, some "Ошибка: суммарное количество наблюдений равно нулю")
          else
            match create_percentage_pivot ap (total : ℚ) with
            | Except.error e =>
                (false, some ("Ошибка при расчете процентов: " ++ e))
            | Except.ok _ =>
              match env.pathsOk with
              | Except.error e =>
                  (false, some ("Ошибка при подготовке путей для сохранения: " ++ e))
              | Except.ok _ =>
                match env.plotOk with
                | Except.error e =>
                    (false, some ("Ошибка при построении розы ветров: " ++ e))
                | Except.ok _ =>
                  if !env.imageExists then
                    (false, some "Ошибка: файл изображения не был создан")
                  else
                    match env.renderOk with
                    | Except.error e =>
                        (false, some ("Ошибка при создании Word-документа: " ++ e))
                    | Except.ok _ =>
                      if !env.docExists then
                        (false, some "Ошибка: файл отчета не был сохранен")
                      else (true, none)

/-- C10: `make_report` never propagates a failure — for every combination of
collaborator outcomes it returns either `(true, none)` or `(false, message)`,
and it returns `(true, none)` only when the plot succeeded, the image file
exists, the document rendering succeeded and the document file exists. -/
theorem make_report_no_exception (env : ReportEnv) (date_from date_to : Int) :
    (make_report env date_from date_to = (true, none) ∨
      ∃ m, make_report env date_from date_to = (false, some m)) ∧
      (make_report env date_from date_to = (true, none) →
        env.plotOk = Except.ok () ∧ env.imageExists = true ∧
          env.renderOk = Except.ok () ∧ env.docExists = true) := by
  constructor
  · simp only [make_report]
    repeat' split
    all_goals first
      | exact Or.inl rfl
      | exact Or.inr ⟨_, rfl⟩
  · intro h
    simp only [make_report] at h
    repeat' split at h
    all_goals simp_all

/-- A fully successful environment for the C10 witness. -/
def sampleEnv : ReportEnv :=
  { getData := Except.ok [⟨"N", some 4⟩], pathsOk := Except.ok ()
    plotOk := Except.ok (), imageExists := true
    renderOk := Except.ok (), docExists := true }

/-- Witness for C10: on a fully successful run the result is `(true, none)`
and the theorem yields the production of both artifacts. -/
theorem make_report_no_exception_witness :
    sampleEnv.plotOk = Except.ok () ∧ sampleEnv.imageExists = true ∧
      sampleEnv.renderOk = Except.ok () ∧ sampleEnv.docExists = true :=
  (make_report_no_exception sampleEnv 0 10).2 rfl
